import Mathlib

/-!
Verification development for the `widgetdc_contracts` package: a shallow
embedding of its Pydantic v2 model declarations and of the validation /
serialization semantics Pydantic gives them (default config: lax mode,
`extra` fields ignored, all errors accumulated into one batch).

JSON input values are modelled as a tree; numbers keep Python's post-parse
`int` / `float` distinction, with `float` carried as an exact rational
(every literal appearing in the contracts' constraints and in the concrete
scenarios is exactly representable).
-/

inductive Json where
  | null : Json
  | bool : Bool → Json
  | int : Int → Json
  | float : ℚ → Json
  | str : String → Json
  | arr : List Json → Json
  | obj : List (String × Json) → Json

/-- Validation error kinds, following the spec's taxonomy.  Pydantic error
types map as: `missing` → MissingFieldError; `int_type`/`int_parsing`/
`int_from_float`/`string_type`/`bool_type`/`float_type`/`model_type`/
`dict_type`/`list_type`/datetime and uuid errors → TypeMismatchError;
`literal_error`/`greater_than_equal`/`less_than_equal`/`string_too_short` →
ConstraintViolationError. -/
inductive ErrKind where
  | missing
  | typeMismatch
  | constraintViolation
  deriving DecidableEq, Repr

structure VError where
  path : List String
  kind : ErrKind
  deriving DecidableEq, Repr

/-- Result of validating one fragment: a value or an accumulated error batch. -/
abbrev Vr (α : Type) := Except (List VError) α

/-- Applicative combination that accumulates errors from both sides
(Pydantic validates every field and reports the whole batch). -/
def vseq {α β : Type} : Vr (α → β) → Vr α → Vr β
  | .ok f, .ok a => .ok (f a)
  | .error e, .ok _ => .error e
  | .ok _, .error e => .error e
  | .error e1, .error e2 => .error (e1 ++ e2)

/-- Key lookup in a JSON object (Python dict: first binding wins; a parsed
dict has unique keys anyway).  Exact, case-sensitive name match. -/
def lookupField (kvs : List (String × Json)) (name : String) : Option Json :=
  match kvs with
  | [] => none
  | (k, v) :: rest => if k = name then some v else lookupField rest name

/-- Required field: absent → `missing` error; present → validate. -/
def vReq {α : Type} (kvs : List (String × Json)) (p : List String) (n : String)
    (f : List String → Json → Vr α) : Vr α :=
  match lookupField kvs n with
  | some j => f (p ++ [n]) j
  | none => .error [⟨p ++ [n], .missing⟩]

/-- Optional field with default: absent → default; present → validate. -/
def vOpt {α : Type} (kvs : List (String × Json)) (p : List String) (n : String)
    (d : α) (f : List String → Json → Vr α) : Vr α :=
  match lookupField kvs n with
  | some j => f (p ++ [n]) j
  | none => .ok d

/-- `X | None` annotations become Pydantic `nullable` core schemas:
`null` is accepted as `none`, anything else validates as `X`. -/
def vNullable {α : Type} (f : Json → Vr α) : Json → Vr (Option α)
  | .null => .ok none
  | j => (f j).map some

/-- String field: Pydantic v2 does not coerce numbers to `str`. -/
def vStr (p : List String) : Json → Vr String
  | .str s => .ok s
  | _ => .error [⟨p, .typeMismatch⟩]

/-- Value of a non-empty all-digit character run. -/
def digitsVal (cs : List Char) : Nat :=
  cs.foldl (fun acc c => acc * 10 + (c.toNat - 48)) 0

/-- Decimal integer string parsing (optional sign, then digits), the lax
string → int coercion Pydantic's core applies. -/
def intOfStr? (s : String) : Option Int :=
  match s.data with
  | '-' :: cs =>
    if cs.isEmpty || !(cs.all Char.isDigit) then none else some (-(digitsVal cs : Int))
  | '+' :: cs =>
    if cs.isEmpty || !(cs.all Char.isDigit) then none else some ((digitsVal cs : Int))
  | cs =>
    if cs.isEmpty || !(cs.all Char.isDigit) then none else some ((digitsVal cs : Int))

/-- Integer field, lax mode: `int` accepted; `float` only when it has no
fractional part (`int_from_float` otherwise); a string is parsed as a
decimal integer (`int_parsing` error when it does not parse); `bool` and
everything else rejected. -/
def vInt (p : List String) : Json → Vr Int
  | .int n => .ok n
  | .float q => if q.den = 1 then .ok q.num else .error [⟨p, .typeMismatch⟩]
  | .str s =>
    match intOfStr? s with
    | some n => .ok n
    | none => .error [⟨p, .typeMismatch⟩]
  | _ => .error [⟨p, .typeMismatch⟩]

/-- Decimal string to rational, for lax string → float coercion
(plain `digits[.digits]` with optional sign; no exponent forms). -/
def ratOfStr? (s : String) : Option ℚ :=
  match s.data with
  | '-' :: cs => (ratOfDigits? cs).map (fun q => -q)
  | cs => ratOfDigits? cs
where
  ratOfDigits? (cs : List Char) : Option ℚ :=
    let ip := cs.takeWhile Char.isDigit
    let rest := cs.dropWhile Char.isDigit
    if ip.isEmpty then none
    else
      match rest with
      | [] => some ((digitsVal ip : ℚ))
      | '.' :: frac =>
        if frac.isEmpty || !(frac.all Char.isDigit) then none
        else some ((digitsVal ip : ℚ) + mkRat (digitsVal frac) (10 ^ frac.length))
      | _ => none

/-- Float field, lax mode: `float` and `int` accepted, numeric strings
coerced, everything else rejected. -/
def vFloat (p : List String) : Json → Vr ℚ
  | .float q => .ok q
  | .int n => .ok (n : ℚ)
  | .str s =>
    match ratOfStr? s with
    | some q => .ok q
    | none => .error [⟨p, .typeMismatch⟩]
  | _ => .error [⟨p, .typeMismatch⟩]

/-- Bool field, lax mode: bools, the ints/floats 0 and 1, and Pydantic's
recognized boolean strings (case-insensitive). -/
def vBool (p : List String) : Json → Vr Bool
  | .bool b => .ok b
  | .int n =>
    if n = 0 then .ok false
    else if n = 1 then .ok true
    else .error [⟨p, .typeMismatch⟩]
  | .float q =>
    if q = 0 then .ok false
    else if q = 1 then .ok true
    else .error [⟨p, .typeMismatch⟩]
  | .str s =>
    if ["true", "t", "yes", "y", "on", "1"].elem s.toLower then .ok true
    else if ["false", "f", "no", "n", "off", "0"].elem s.toLower then .ok false
    else .error [⟨p, .typeMismatch⟩]
  | _ => .error [⟨p, .typeMismatch⟩]

/-- `Any` annotation: opaque pass-through. -/
def vAny (_p : List String) (j : Json) : Vr Json := .ok j

/-- Closed literal set (`Literal[...]`): any value outside the set —
including values of the right scalar kind — is a `literal_error`,
i.e. a ConstraintViolationError. -/
def vLit {α : Type} (ofStr : String → Option α) (p : List String) : Json → Vr α
  | .str s =>
    match ofStr s with
    | some a => .ok a
    | none => .error [⟨p, .constraintViolation⟩]
  | _ => .error [⟨p, .constraintViolation⟩]

/-- Integer with inclusive `ge`/`le` bounds (`Field(..., ge=lo, le=hi)`). -/
def vIntBnd (lo hi : Int) (p : List String) (j : Json) : Vr Int :=
  (vInt p j).bind (fun n =>
    if lo ≤ n ∧ n ≤ hi then .ok n else .error [⟨p, .constraintViolation⟩])

/-- Integer with an inclusive lower bound only (`Field(..., ge=lo)`). -/
def vIntGe (lo : Int) (p : List String) (j : Json) : Vr Int :=
  (vInt p j).bind (fun n =>
    if lo ≤ n then .ok n else .error [⟨p, .constraintViolation⟩])

/-- Float with inclusive `ge`/`le` bounds. -/
def vFloatBnd (lo hi : ℚ) (p : List String) (j : Json) : Vr ℚ :=
  (vFloat p j).bind (fun q =>
    if lo ≤ q ∧ q ≤ hi then .ok q else .error [⟨p, .constraintViolation⟩])

/-- String with a `min_length` constraint (character count). -/
def vStrMin (m : Nat) (p : List String) (j : Json) : Vr String :=
  (vStr p j).bind (fun s =>
    if m ≤ s.length then .ok s else .error [⟨p, .constraintViolation⟩])

/-- The key pattern `^(.*)$` declared on every dict field
(`constr(pattern=r'^(.*)$')`).  Under pydantic-core's default rust-regex
engine `.` does not match a newline and `^`/`$` anchor at the ends of the
haystack, so a key matches the pattern exactly when it contains no newline
character. -/
def keyPatternOk (s : String) : Bool := !(s.data.contains '\n')

/-- A dict key, checked against the declared `^(.*)$` pattern; a failure
is a `string_pattern_mismatch`, i.e. a ConstraintViolationError, located
at the key (pydantic marks key errors with a trailing `[key]`). -/
def vKey (p : List String) (k : String) : Vr String :=
  if keyPatternOk k then .ok k else .error [⟨p ++ [k, "[key]"], .constraintViolation⟩]

/-- Entries of a `dict[constr(pattern=...), X]` value: each key is checked
against the declared pattern and each value against the element validator,
all errors accumulated; value error paths gain the key. -/
def vDictEntries {α : Type} (f : List String → Json → Vr α) (p : List String) :
    List (String × Json) → Vr (List (String × α))
  | [] => .ok []
  | (k, j) :: rest =>
    vseq (vseq (vseq (.ok (fun k2 a r => (k2, a) :: r)) (vKey p k)) (f (p ++ [k]) j))
      (vDictEntries f p rest)

def vDict {α : Type} (f : List String → Json → Vr α) (p : List String) :
    Json → Vr (List (String × α))
  | .obj kvs => vDictEntries f p kvs
  | _ => .error [⟨p, .typeMismatch⟩]

/-- Elements of a `list[X]` value; error paths gain the index. -/
def vListEntries {α : Type} (f : List String → Json → Vr α) (p : List String)
    (i : Nat) : List Json → Vr (List α)
  | [] => .ok []
  | j :: rest =>
    vseq (vseq (.ok (fun a r => a :: r)) (f (p ++ [Nat.repr i]) j)) (vListEntries f p (i + 1) rest)

def vList {α : Type} (f : List String → Json → Vr α) (p : List String) :
    Json → Vr (List α)
  | .arr xs => vListEntries f p 0 xs
  | _ => .error [⟨p, .typeMismatch⟩]

/-- Serialization helpers: `model_dump` in JSON mode emits every declared
field in declaration order, `None` as `null`. -/
def jOptStr : Option String → Json
  | none => .null
  | some s => .str s

def jOptInt : Option Int → Json
  | none => .null
  | some n => .int n

def jOptFloat : Option ℚ → Json
  | none => .null
  | some q => .float q

def jOptBool : Option Bool → Json
  | none => .null
  | some b => .bool b

def jsonKeys : Json → List String
  | .obj kvs => kvs.map Prod.fst
  | _ => []

/-! ### cognitive.py — Quality / QualityScore / Trace / TraceInfo

The source declares these shapes twice each (generation from multiple
schema references); the pairs are embedded separately, one definition per
source class. -/

structure Quality where
  overall_score : ℚ
  parsability : Option ℚ
  relevance : Option ℚ
  completeness : Option ℚ
  deriving DecidableEq, Repr

def Quality.validate (p : List String) : Json → Vr Quality
  | .obj kvs =>
    vseq (vseq (vseq (vseq (.ok Quality.mk)
      (vReq kvs p "overall_score" (vFloatBnd 0 1)))
      (vOpt kvs p "parsability" none (fun q j => vNullable (vFloat q) j)))
      (vOpt kvs p "relevance" none (fun q j => vNullable (vFloat q) j)))
      (vOpt kvs p "completeness" none (fun q j => vNullable (vFloat q) j))
  | _ => .error [⟨p, .typeMismatch⟩]

structure QualityScore where
  overall_score : ℚ
  parsability : Option ℚ
  relevance : Option ℚ
  completeness : Option ℚ
  deriving DecidableEq, Repr

def QualityScore.validate (p : List String) : Json → Vr QualityScore
  | .obj kvs =>
    vseq (vseq (vseq (vseq (.ok QualityScore.mk)
      (vReq kvs p "overall_score" (vFloatBnd 0 1)))
      (vOpt kvs p "parsability" none (fun q j => vNullable (vFloat q) j)))
      (vOpt kvs p "relevance" none (fun q j => vNullable (vFloat q) j)))
      (vOpt kvs p "completeness" none (fun q j => vNullable (vFloat q) j))
  | _ => .error [⟨p, .typeMismatch⟩]

structure Trace where
  trace_id : String
  total_spans : Option Int
  total_duration_ms : Option ℚ
  deriving DecidableEq, Repr

def Trace.validate (p : List String) : Json → Vr Trace
  | .obj kvs =>
    vseq (vseq (vseq (.ok Trace.mk)
      (vReq kvs p "trace_id" vStr))
      (vOpt kvs p "total_spans" none (fun q j => vNullable (vInt q) j)))
      (vOpt kvs p "total_duration_ms" none (fun q j => vNullable (vFloat q) j))
  | _ => .error [⟨p, .typeMismatch⟩]

structure TraceInfo where
  trace_id : String
  total_spans : Option Int
  total_duration_ms : Option ℚ
  deriving DecidableEq, Repr

def TraceInfo.validate (p : List String) : Json → Vr TraceInfo
  | .obj kvs =>
    vseq (vseq (vseq (.ok TraceInfo.mk)
      (vReq kvs p "trace_id" vStr))
      (vOpt kvs p "total_spans" none (fun q j => vNullable (vInt q) j)))
      (vOpt kvs p "total_duration_ms" none (fun q j => vNullable (vFloat q) j))
  | _ => .error [⟨p, .typeMismatch⟩]

/-! ### Literal enums -/

/-- `Literal['frontend', 'backend', 'rlm-engine']` (HealthPulse.service,
CognitiveRequest.source_service). -/
inductive ServiceName where
  | frontend
  | backend
  | rlm_engine
  deriving DecidableEq, Repr

def ServiceName.toStr : ServiceName → String
  | .frontend => "frontend"
  | .backend => "backend"
  | .rlm_engine => "rlm-engine"

def ServiceName.ofStr? (s : String) : Option ServiceName :=
  if s = "frontend" then some .frontend
  else if s = "backend" then some .backend
  else if s = "rlm-engine" then some .rlm_engine
  else none

/-- `Literal['healthy', 'degraded', 'unhealthy', 'starting']` (HealthPulse.status). -/
inductive PulseStatus where
  | healthy
  | degraded
  | unhealthy
  | starting
  deriving DecidableEq, Repr

def PulseStatus.toStr : PulseStatus → String
  | .healthy => "healthy"
  | .degraded => "degraded"
  | .unhealthy => "unhealthy"
  | .starting => "starting"

def PulseStatus.ofStr? (s : String) : Option PulseStatus :=
  if s = "healthy" then some .healthy
  else if s = "degraded" then some .degraded
  else if s = "unhealthy" then some .unhealthy
  else if s = "starting" then some .starting
  else none

/-- `Literal['active', 'degraded', 'inactive', 'error']` (HealthPulse.modules values). -/
inductive ModuleState where
  | active
  | degraded
  | inactive
  | error
  deriving DecidableEq, Repr

def ModuleState.toStr : ModuleState → String
  | .active => "active"
  | .degraded => "degraded"
  | .inactive => "inactive"
  | .error => "error"

def ModuleState.ofStr? (s : String) : Option ModuleState :=
  if s = "active" then some .active
  else if s = "degraded" then some .degraded
  else if s = "inactive" then some .inactive
  else if s = "error" then some .error
  else none

/-- The seven-member literal set of `ApiError.code`. -/
inductive ApiErrorCode where
  | VALIDATION_ERROR
  | AUTH_ERROR
  | NOT_FOUND
  | RATE_LIMIT
  | INTERNAL_ERROR
  | TIMEOUT
  | SERVICE_UNAVAILABLE
  deriving DecidableEq, Repr

def ApiErrorCode.toStr : ApiErrorCode → String
  | .VALIDATION_ERROR => "VALIDATION_ERROR"
  | .AUTH_ERROR => "AUTH_ERROR"
  | .NOT_FOUND => "NOT_FOUND"
  | .RATE_LIMIT => "RATE_LIMIT"
  | .INTERNAL_ERROR => "INTERNAL_ERROR"
  | .TIMEOUT => "TIMEOUT"
  | .SERVICE_UNAVAILABLE => "SERVICE_UNAVAILABLE"

def ApiErrorCode.ofStr? (s : String) : Option ApiErrorCode :=
  if s = "VALIDATION_ERROR" then some .VALIDATION_ERROR
  else if s = "AUTH_ERROR" then some .AUTH_ERROR
  else if s = "NOT_FOUND" then some .NOT_FOUND
  else if s = "RATE_LIMIT" then some .RATE_LIMIT
  else if s = "INTERNAL_ERROR" then some .INTERNAL_ERROR
  else if s = "TIMEOUT" then some .TIMEOUT
  else if s = "SERVICE_UNAVAILABLE" then some .SERVICE_UNAVAILABLE
  else none

/-- The literal strings of `ApiError.code`, in declared order. -/
def apiErrorCodeStrs : List String :=
  ["VALIDATION_ERROR", "AUTH_ERROR", "NOT_FOUND", "RATE_LIMIT",
   "INTERNAL_ERROR", "TIMEOUT", "SERVICE_UNAVAILABLE"]

/-- `Literal['quick', 'deep', 'strategic']` (CognitiveRequest.reasoning_mode). -/
inductive ReasoningMode where
  | quick
  | deep
  | strategic
  deriving DecidableEq, Repr

def ReasoningMode.toStr : ReasoningMode → String
  | .quick => "quick"
  | .deep => "deep"
  | .strategic => "strategic"

def ReasoningMode.ofStr? (s : String) : Option ReasoningMode :=
  if s = "quick" then some .quick
  else if s = "deep" then some .deep
  else if s = "strategic" then some .strategic
  else none

/-- consulting.py `DomainId` root-model literal set. -/
inductive DomainId where
  | strategy_corp
  | deals_ma
  | financial_advisory
  | operations_supply_chain
  | technology_digital
  | ai_analytics
  | cybersecurity
  | risk_compliance_controls
  | tax_legal_adjacent
  | esg_sustainability
  | customer_marketing_sales
  | people_organization
  | pmo_change
  | industry_solutions
  | managed_services_operate
  deriving DecidableEq, Repr

def DomainId.ofStr? (s : String) : Option DomainId :=
  if s = "strategy_corp" then some .strategy_corp
  else if s = "deals_ma" then some .deals_ma
  else if s = "financial_advisory" then some .financial_advisory
  else if s = "operations_supply_chain" then some .operations_supply_chain
  else if s = "technology_digital" then some .technology_digital
  else if s = "ai_analytics" then some .ai_analytics
  else if s = "cybersecurity" then some .cybersecurity
  else if s = "risk_compliance_controls" then some .risk_compliance_controls
  else if s = "tax_legal_adjacent" then some .tax_legal_adjacent
  else if s = "esg_sustainability" then some .esg_sustainability
  else if s = "customer_marketing_sales" then some .customer_marketing_sales
  else if s = "people_organization" then some .people_organization
  else if s = "pmo_change" then some .pmo_change
  else if s = "industry_solutions" then some .industry_solutions
  else if s = "managed_services_operate" then some .managed_services_operate
  else none

/-- The literal strings of `DomainId`, in declared order. -/
def domainIdStrs : List String :=
  ["strategy_corp", "deals_ma", "financial_advisory", "operations_supply_chain",
   "technology_digital", "ai_analytics", "cybersecurity", "risk_compliance_controls",
   "tax_legal_adjacent", "esg_sustainability", "customer_marketing_sales",
   "people_organization", "pmo_change", "industry_solutions", "managed_services_operate"]

/-- `DomainId` is a `RootModel`: the root value itself must be a member of
the literal set. -/
def DomainId.validate (j : Json) : Vr DomainId :=
  vLit DomainId.ofStr? [] j

/-! ### AwareDatetime and UUID

`AwareDatetime` is Pydantic's timezone-aware datetime.  It is modelled as a
structural check of the ISO-8601 forms `YYYY-MM-DDTHH:MM:SSZ` and
`YYYY-MM-DDTHH:MM:SS±HH:MM` (an explicit offset or Z is what makes the
value "aware"); numeric-epoch coercion and fractional seconds are outside
the modelled fragment, and the validated value keeps the input text. -/

def isAwareDatetime (s : String) : Bool :=
  match s.data with
  | [y1, y2, y3, y4, '-', m1, m2, '-', d1, d2, 'T',
     h1, h2, ':', n1, n2, ':', s1, s2, 'Z'] =>
    [y1, y2, y3, y4, m1, m2, d1, d2, h1, h2, n1, n2, s1, s2].all Char.isDigit
  | [y1, y2, y3, y4, '-', m1, m2, '-', d1, d2, 'T',
     h1, h2, ':', n1, n2, ':', s1, s2, sg, o1, o2, ':', o3, o4] =>
    (sg = '+' || sg = '-') &&
      [y1, y2, y3, y4, m1, m2, d1, d2, h1, h2, n1, n2, s1, s2, o1, o2, o3, o4].all Char.isDigit
  | _ => false

def vDatetime (p : List String) : Json → Vr String
  | .str s => if isAwareDatetime s then .ok s else .error [⟨p, .typeMismatch⟩]
  | _ => .error [⟨p, .typeMismatch⟩]

/-- Lowercase hexadecimal digits. -/
def hexChars : List Char := "0123456789abcdef".data

def isHexLower (c : Char) : Bool := hexChars.elem c

/-- UUID parsing, modelled on Python's `uuid.UUID(str)`: hyphens are
stripped, the remainder must be 32 hex digits (case-insensitive, stored
lowercased); urn/brace wrappers are outside the modelled fragment.  The
typed value is the list of 32 lowercase hex digits. -/
def parseUuid (s : String) : Option (List Char) :=
  let cs := (s.data.filter (fun c => c != '-')).map Char.toLower
  if cs.length = 32 && cs.all isHexLower then some cs else none

/-- Canonical 8-4-4-4-12 hyphenated rendering, as `str(UUID)` produces. -/
def uuidChars (u : List Char) : List Char :=
  u.take 8 ++ '-' :: (u.drop 8).take 4 ++ '-' :: (u.drop 12).take 4 ++
    '-' :: (u.drop 16).take 4 ++ '-' :: u.drop 20

def uuidToStr (u : List Char) : String := String.mk (uuidChars u)

def vUuid (p : List String) : Json → Vr (List Char)
  | .str s =>
    match parseUuid s with
    | some u => .ok u
    | none => .error [⟨p, .typeMismatch⟩]
  | _ => .error [⟨p, .typeMismatch⟩]

/-! ### health.py — Resources, HealthPulse -/

structure Resources where
  memory_mb : Option ℚ
  cpu_percent : Option ℚ
  neo4j_connected : Option Bool
  redis_connected : Option Bool
  postgres_connected : Option Bool
  deriving DecidableEq, Repr

def Resources.validate (p : List String) : Json → Vr Resources
  | .obj kvs =>
    vseq (vseq (vseq (vseq (vseq (.ok Resources.mk)
      (vOpt kvs p "memory_mb" none (fun q j => vNullable (vFloat q) j)))
      (vOpt kvs p "cpu_percent" none (fun q j => vNullable (vFloat q) j)))
      (vOpt kvs p "neo4j_connected" none (fun q j => vNullable (vBool q) j)))
      (vOpt kvs p "redis_connected" none (fun q j => vNullable (vBool q) j)))
      (vOpt kvs p "postgres_connected" none (fun q j => vNullable (vBool q) j))
  | _ => .error [⟨p, .typeMismatch⟩]

def Resources.serialize (v : Resources) : Json :=
  .obj [("memory_mb", jOptFloat v.memory_mb),
        ("cpu_percent", jOptFloat v.cpu_percent),
        ("neo4j_connected", jOptBool v.neo4j_connected),
        ("redis_connected", jOptBool v.redis_connected),
        ("postgres_connected", jOptBool v.postgres_connected)]

structure HealthPulse where
  service : ServiceName
  status : PulseStatus
  uptime_seconds : ℚ
  last_request_ms : Option ℚ
  active_sessions : Option Int
  modules : Option (List (String × ModuleState))
  resources : Option Resources
  last_error : Option String
  version : Option String
  timestamp : String
  deriving DecidableEq, Repr

def HealthPulse.validate (p : List String) : Json → Vr HealthPulse
  | .obj kvs =>
    vseq (vseq (vseq (vseq (vseq (vseq (vseq (vseq (vseq (vseq (.ok HealthPulse.mk)
      (vReq kvs p "service" (vLit ServiceName.ofStr?)))
      (vReq kvs p "status" (vLit PulseStatus.ofStr?)))
      (vReq kvs p "uptime_seconds" vFloat))
      (vOpt kvs p "last_request_ms" none (fun q j => vNullable (vFloat q) j)))
      (vOpt kvs p "active_sessions" none (fun q j => vNullable (vInt q) j)))
      (vOpt kvs p "modules" none
        (fun q j => vNullable (vDict (vLit ModuleState.ofStr?) q) j)))
      (vOpt kvs p "resources" none (fun q j => vNullable (Resources.validate q) j)))
      (vOpt kvs p "last_error" none (fun q j => vNullable (vStr q) j)))
      (vOpt kvs p "version" none (fun q j => vNullable (vStr q) j)))
      (vReq kvs p "timestamp" vDatetime)
  | _ => .error [⟨p, .typeMismatch⟩]

def HealthPulse.serialize (v : HealthPulse) : Json :=
  .obj [("service", .str v.service.toStr),
        ("status", .str v.status.toStr),
        ("uptime_seconds", .float v.uptime_seconds),
        ("last_request_ms", jOptFloat v.last_request_ms),
        ("active_sessions", jOptInt v.active_sessions),
        ("modules",
          match v.modules with
          | none => .null
          | some m => .obj (m.map (fun kv => (kv.1, Json.str kv.2.toStr)))),
        ("resources",
          match v.resources with
          | none => .null
          | some r => r.serialize),
        ("last_error", jOptStr v.last_error),
        ("version", jOptStr v.version),
        ("timestamp", .str v.timestamp)]

/-- The declared field names of `HealthPulse`, in declaration order. -/
def healthPulseFields : List String :=
  ["service", "status", "uptime_seconds", "last_request_ms", "active_sessions",
   "modules", "resources", "last_error", "version", "timestamp"]

/-! ### http_.py — ApiError, PaginatedResponse -/

structure ApiError where
  code : ApiErrorCode
  message : String
  status_code : Int
  details : Option (List (String × Json))
  correlation_id : Option String

def ApiError.validate (p : List String) : Json → Vr ApiError
  | .obj kvs =>
    vseq (vseq (vseq (vseq (vseq (.ok ApiError.mk)
      (vReq kvs p "code" (vLit ApiErrorCode.ofStr?)))
      (vReq kvs p "message" vStr))
      (vReq kvs p "status_code" (vIntBnd 400 599)))
      (vOpt kvs p "details" none (fun q j => vNullable (vDict vAny q) j)))
      (vOpt kvs p "correlation_id" none (fun q j => vNullable (vStr q) j))
  | _ => .error [⟨p, .typeMismatch⟩]

def ApiError.serialize (v : ApiError) : Json :=
  .obj [("code", .str v.code.toStr),
        ("message", .str v.message),
        ("status_code", .int v.status_code),
        ("details",
          match v.details with
          | none => .null
          | some d => .obj d),
        ("correlation_id", jOptStr v.correlation_id)]

structure PaginatedResponse where
  items : List Json
  total : Int
  page : Int
  page_size : Int
  has_more : Bool

def PaginatedResponse.validate (p : List String) : Json → Vr PaginatedResponse
  | .obj kvs =>
    vseq (vseq (vseq (vseq (vseq (.ok PaginatedResponse.mk)
      (vReq kvs p "items" (vList vAny)))
      (vReq kvs p "total" (vIntGe 0)))
      (vReq kvs p "page" (vIntGe 1)))
      (vReq kvs p "page_size" (vIntGe 1)))
      (vReq kvs p "has_more" vBool)
  | _ => .error [⟨p, .typeMismatch⟩]

/-! ### cognitive.py — Constraints, CognitiveConstraints, Routing,
CognitiveResponse, CognitiveRequest

`CognitiveConstraints` and `Constraints` are two textually identical source
classes; both are embedded.  `CognitiveRequest.constraints` refers to
`Constraints`. -/

structure CognitiveConstraints where
  max_tokens : Option Int
  timeout_ms : Option Int
  fold_context : Option Bool
  preferred_provider : Option String
  deriving DecidableEq, Repr

def CognitiveConstraints.validate (p : List String) : Json → Vr CognitiveConstraints
  | .obj kvs =>
    vseq (vseq (vseq (vseq (.ok CognitiveConstraints.mk)
      (vOpt kvs p "max_tokens" none (fun q j => vNullable (vIntBnd 100 32000 q) j)))
      (vOpt kvs p "timeout_ms" none (fun q j => vNullable (vIntGe 1000 q) j)))
      (vOpt kvs p "fold_context" (some true) (fun q j => vNullable (vBool q) j)))
      (vOpt kvs p "preferred_provider" none (fun q j => vNullable (vStr q) j))
  | _ => .error [⟨p, .typeMismatch⟩]

structure Constraints where
  max_tokens : Option Int
  timeout_ms : Option Int
  fold_context : Option Bool
  preferred_provider : Option String
  deriving DecidableEq, Repr

def Constraints.validate (p : List String) : Json → Vr Constraints
  | .obj kvs =>
    vseq (vseq (vseq (vseq (.ok Constraints.mk)
      (vOpt kvs p "max_tokens" none (fun q j => vNullable (vIntBnd 100 32000 q) j)))
      (vOpt kvs p "timeout_ms" none (fun q j => vNullable (vIntGe 1000 q) j)))
      (vOpt kvs p "fold_context" (some true) (fun q j => vNullable (vBool q) j)))
      (vOpt kvs p "preferred_provider" none (fun q j => vNullable (vStr q) j))
  | _ => .error [⟨p, .typeMismatch⟩]

def Constraints.serialize (v : Constraints) : Json :=
  .obj [("max_tokens", jOptInt v.max_tokens),
        ("timeout_ms", jOptInt v.timeout_ms),
        ("fold_context", jOptBool v.fold_context),
        ("preferred_provider", jOptStr v.preferred_provider)]

structure Routing where
  provider : String
  model : String
  domain : Option String
  latency_ms : Option ℚ
  cost : Option ℚ
  deriving DecidableEq, Repr

def Routing.validate (p : List String) : Json → Vr Routing
  | .obj kvs =>
    vseq (vseq (vseq (vseq (vseq (.ok Routing.mk)
      (vReq kvs p "provider" vStr))
      (vReq kvs p "model" vStr))
      (vOpt kvs p "domain" none (fun q j => vNullable (vStr q) j)))
      (vOpt kvs p "latency_ms" none (fun q j => vNullable (vFloat q) j)))
      (vOpt kvs p "cost" none (fun q j => vNullable (vFloat q) j))
  | _ => .error [⟨p, .typeMismatch⟩]

structure CognitiveResponse where
  recommendation : Option String
  reasoning : String
  confidence : ℚ
  reasoning_chain : Option (List String)
  trace : Option Trace
  quality : Option Quality
  routing : Option Routing
  deriving DecidableEq, Repr

/-- `recommendation: str | None = Field(...)` — the `...` makes the field
required while the annotation keeps it nullable. -/
def CognitiveResponse.validate (p : List String) : Json → Vr CognitiveResponse
  | .obj kvs =>
    vseq (vseq (vseq (vseq (vseq (vseq (vseq (.ok CognitiveResponse.mk)
      (vReq kvs p "recommendation" (fun q j => vNullable (vStr q) j)))
      (vReq kvs p "reasoning" vStr))
      (vReq kvs p "confidence" (vFloatBnd 0 1)))
      (vOpt kvs p "reasoning_chain" none (fun q j => vNullable (vList vStr q) j)))
      (vOpt kvs p "trace" none (fun q j => vNullable (Trace.validate q) j)))
      (vOpt kvs p "quality" none (fun q j => vNullable (Quality.validate q) j)))
      (vOpt kvs p "routing" none (fun q j => vNullable (Routing.validate q) j))
  | _ => .error [⟨p, .typeMismatch⟩]

structure CognitiveRequest where
  task : String
  context : Option (List (String × Json))
  reasoning_mode : Option ReasoningMode
  trace_id : Option (List Char)
  source_service : Option ServiceName
  domain_hint : Option String
  constraints : Option Constraints
  recursion_depth : Option Int

def CognitiveRequest.validate (p : List String) : Json → Vr CognitiveRequest
  | .obj kvs =>
    vseq (vseq (vseq (vseq (vseq (vseq (vseq (vseq (.ok CognitiveRequest.mk)
      (vReq kvs p "task" (vStrMin 1)))
      (vOpt kvs p "context" none (fun q j => vNullable (vDict vAny q) j)))
      (vOpt kvs p "reasoning_mode" (some .quick)
        (fun q j => vNullable (vLit ReasoningMode.ofStr? q) j)))
      (vOpt kvs p "trace_id" none (fun q j => vNullable (vUuid q) j)))
      (vOpt kvs p "source_service" (some .backend)
        (fun q j => vNullable (vLit ServiceName.ofStr? q) j)))
      (vOpt kvs p "domain_hint" none (fun q j => vNullable (vStr q) j)))
      (vOpt kvs p "constraints" none (fun q j => vNullable (Constraints.validate q) j)))
      (vOpt kvs p "recursion_depth" (some 0) (fun q j => vNullable (vIntBnd 0 5 q) j))
  | _ => .error [⟨p, .typeMismatch⟩]

/-- Serializers for the nullable composite fields of `CognitiveRequest`. -/
def jOptObj : Option (List (String × Json)) → Json
  | none => .null
  | some kvs => .obj kvs

def jOptMode : Option ReasoningMode → Json
  | none => .null
  | some m => .str m.toStr

def jOptUuid : Option (List Char) → Json
  | none => .null
  | some u => .str (uuidToStr u)

def jOptService : Option ServiceName → Json
  | none => .null
  | some s => .str s.toStr

def jOptConstraints : Option Constraints → Json
  | none => .null
  | some c => c.serialize

def CognitiveRequest.serialize (v : CognitiveRequest) : Json :=
  .obj [("task", .str v.task),
        ("context", jOptObj v.context),
        ("reasoning_mode", jOptMode v.reasoning_mode),
        ("trace_id", jOptUuid v.trace_id),
        ("source_service", jOptService v.source_service),
        ("domain_hint", jOptStr v.domain_hint),
        ("constraints", jOptConstraints v.constraints),
        ("recursion_depth", jOptInt v.recursion_depth)]


/-! ### Remaining definitions: equality instances, repackaging maps,
validity predicates for typed values -/

instance {ε α : Type} [DecidableEq ε] [DecidableEq α] : DecidableEq (Except ε α) := fun a b =>
  match a, b with
  | .ok x, .ok y =>
    match decEq x y with
    | isTrue h => isTrue (by rw [h])
    | isFalse h => isFalse (fun hh => h (Except.ok.inj hh))
  | .ok _, .error _ => isFalse (fun hh => Except.noConfusion hh)
  | .error _, .ok _ => isFalse (fun hh => Except.noConfusion hh)
  | .error e, .error f =>
    match decEq e f with
    | isTrue h => isTrue (by rw [h])
    | isFalse h => isFalse (fun hh => h (Except.error.inj hh))

/-- Field-wise repackaging of a validated `Quality` as a `QualityScore`. -/
def Quality.toScore (q : Quality) : QualityScore :=
  ⟨q.overall_score, q.parsability, q.relevance, q.completeness⟩

/-- Field-wise repackaging of a validated `Trace` as a `TraceInfo`. -/
def Trace.toInfo (t : Trace) : TraceInfo :=
  ⟨t.trace_id, t.total_spans, t.total_duration_ms⟩

/-- A typed `ApiError` that satisfies its declared constraints
(`status_code` within the inclusive 400–599 bounds, and every `details`
key matching the declared `^(.*)$` key pattern). -/
def ApiError.Valid (v : ApiError) : Prop :=
  400 ≤ v.status_code ∧ v.status_code ≤ 599 ∧
  (match v.details with
   | none => True
   | some d => d.all (fun kv => keyPatternOk kv.1) = true)

/-- A well-formed typed UUID value: 32 lowercase hexadecimal digits. -/
def UuidValid (u : List Char) : Prop :=
  u.length = 32 ∧ u.all isHexLower = true

/-- A typed `Constraints` that satisfies its declared bounds
(`max_tokens` in 100–32000, `timeout_ms` ≥ 1000, both when present). -/
def Constraints.Valid (c : Constraints) : Prop :=
  (match c.max_tokens with
   | none => True
   | some n => 100 ≤ n ∧ n ≤ 32000) ∧
  (match c.timeout_ms with
   | none => True
   | some n => 1000 ≤ n)

/-- A typed `CognitiveRequest` that satisfies its declared constraints
(`task` non-empty, every `context` key matching the declared `^(.*)$` key
pattern, a well-formed `trace_id`, valid nested `constraints`,
`recursion_depth` in 0–5 when present). -/
def CognitiveRequest.Valid (v : CognitiveRequest) : Prop :=
  1 ≤ v.task.length ∧
  (match v.context with
   | none => True
   | some kvs => kvs.all (fun kv => keyPatternOk kv.1) = true) ∧
  (match v.trace_id with
   | none => True
   | some u => UuidValid u) ∧
  (match v.constraints with
   | none => True
   | some c => Constraints.Valid c) ∧
  (match v.recursion_depth with
   | none => True
   | some n => 0 ≤ n ∧ n ≤ 5)
/-! ### Lemmas -/

lemma map_vseq {α β γ : Type} (g : β → γ) (F : Vr (α → β)) (a : Vr α) :
    Except.map g (vseq F a) = vseq (Except.map (fun f => g ∘ f) F) a := by
  cases F <;> cases a <;> rfl

lemma vseq_error_left {α β : Type} {F : Vr (α → β)} {E : List VError} {x : VError}
    (h : F = .error E) (hx : x ∈ E) (a : Vr α) :
    ∃ E', vseq F a = .error E' ∧ x ∈ E' := by
  subst h
  cases a with
  | ok _ => exact ⟨E, rfl, hx⟩
  | error e2 => exact ⟨E ++ e2, rfl, List.mem_append_left _ hx⟩

lemma lookupField_cons_ne {k n : String} {j : Json} {kvs : List (String × Json)}
    (h : ¬(k = n)) : lookupField ((k, j) :: kvs) n = lookupField kvs n := by
  simp [lookupField, h]

/-- C5 body test -/
lemma vseq_error_error {α β : Type} {F : Vr (α → β)} {a : Vr α} {E1 E2 : List VError}
    (hF : F = .error E1) (ha : a = .error E2) : vseq F a = .error (E1 ++ E2) := by
  subst hF; subst ha; rfl

lemma apiErrorCode_ofStr_none {s : String} (h : s ∉ apiErrorCodeStrs) :
    ApiErrorCode.ofStr? s = none := by
  simp only [apiErrorCodeStrs, List.mem_cons, List.not_mem_nil, or_false, not_or] at h
  obtain ⟨h1, h2, h3, h4, h5, h6, h7⟩ := h
  simp [ApiErrorCode.ofStr?, h1, h2, h3, h4, h5, h6, h7]

lemma domainId_ofStr_none {s : String} (h : s ∉ domainIdStrs) :
    DomainId.ofStr? s = none := by
  simp only [domainIdStrs, List.mem_cons, List.not_mem_nil, or_false, not_or] at h
  obtain ⟨h1, h2, h3, h4, h5, h6, h7, h8, h9, h10, h11, h12, h13, h14, h15⟩ := h
  simp [DomainId.ofStr?, h1, h2, h3, h4, h5, h6, h7, h8, h9, h10, h11, h12, h13, h14, h15]

lemma map_id_of_mem {l : List Char} {f : Char → Char} (h : ∀ a ∈ l, f a = a) :
    l.map f = l := by
  induction l with
  | nil => rfl
  | cons c cs ih =>
    simp only [List.map_cons, h c (by simp)]
    rw [ih (fun a ha => h a (by simp [ha]))]

lemma toLower_of_hex {c : Char} (h : isHexLower c = true) : c.toLower = c := by
  have hm : c ∈ hexChars := by
    simpa [isHexLower, List.elem_iff] using h
  fin_cases hm <;> rfl

lemma ne_dash_of_hex {c : Char} (h : isHexLower c = true) : (c != '-') = true := by
  rcases eq_or_ne c '-' with rfl | hc
  · simp [isHexLower, hexChars] at h
  · simpa using hc

lemma filter_hex_run {l : List Char} (h : ∀ a ∈ l, isHexLower a = true) :
    l.filter (fun c => c != '-') = l :=
  List.filter_eq_self.mpr (fun a ha => ne_dash_of_hex (h a ha))

/-- The canonical hyphenated rendering of a well-formed UUID parses back to
exactly the same 32 hex digits. -/
lemma parseUuid_canon {u : List Char} (hLen : u.length = 32) (hHex : u.all isHexLower = true) :
    parseUuid (uuidToStr u) = some u := by
  have hu : ∀ a ∈ u, isHexLower a = true := List.all_eq_true.mp hHex
  have seg : ∀ m n : Nat, ∀ a ∈ (u.drop m).take n, isHexLower a = true :=
    fun m n a ha => hu a (List.mem_of_mem_drop (List.mem_of_mem_take ha))
  have hfilter : (uuidChars u).filter (fun c => c != '-') = u := by
    have hstep : (uuidChars u).filter (fun c => c != '-') =
        u.take 8 ++ ((u.drop 8).take 4 ++ ((u.drop 12).take 4 ++
          ((u.drop 16).take 4 ++ u.drop 20))) := by
      simp only [uuidChars, List.filter_append, List.filter_cons,
        show (('-' : Char) != '-') = false by decide, Bool.false_eq_true, if_false]
      rw [filter_hex_run (fun a ha => hu a (List.mem_of_mem_take ha)),
          filter_hex_run (seg 8 4), filter_hex_run (seg 12 4), filter_hex_run (seg 16 4),
          filter_hex_run (fun a ha => hu a (List.mem_of_mem_drop ha))]
      simp [List.append_assoc]
    rw [hstep,
        show u.drop 20 = (u.drop 16).drop 4 by rw [List.drop_drop],
        List.take_append_drop,
        show u.drop 16 = (u.drop 12).drop 4 by rw [List.drop_drop],
        List.take_append_drop,
        show u.drop 12 = (u.drop 8).drop 4 by rw [List.drop_drop],
        List.take_append_drop, List.take_append_drop]
  have hmap : u.map Char.toLower = u :=
    map_id_of_mem (fun a ha => toLower_of_hex (hu a ha))
  simp only [parseUuid, uuidToStr, hfilter, hmap]
  simp [hLen, hHex]

lemma vDictEntries_any (p : List String) (l : List (String × Json))
    (h : ∀ kv ∈ l, keyPatternOk kv.1 = true) :
    vDictEntries vAny p l = .ok l := by
  induction l with
  | nil => rfl
  | cons kv rest ih =>
    obtain ⟨k, j⟩ := kv
    have hk : keyPatternOk k = true := h (k, j) (by simp)
    have hrest := ih (fun kv hkv => h kv (by simp [hkv]))
    simp [vDictEntries, vKey, vAny, vseq, hk, hrest]

lemma apiErrorCode_ofStr_toStr (c : ApiErrorCode) : ApiErrorCode.ofStr? c.toStr = some c := by
  cases c <;> rfl

lemma reasoningMode_ofStr_toStr (m : ReasoningMode) : ReasoningMode.ofStr? m.toStr = some m := by
  cases m <;> rfl

lemma serviceName_ofStr_toStr (s : ServiceName) : ServiceName.ofStr? s.toStr = some s := by
  cases s <;> rfl

lemma apiError_roundtrip (v : ApiError) (hv : v.Valid) :
    ApiError.validate [] (ApiError.serialize v) = .ok v := by
  obtain ⟨c, m, n, d, ci⟩ := v
  obtain ⟨h1, h2, h3⟩ := hv
  dsimp only at h1 h2 h3
  cases d with
  | none =>
    cases ci <;>
      simp [ApiError.serialize, ApiError.validate, vReq, vOpt, lookupField, vStr,
        vNullable, jOptStr, vDict, apiErrorCode_ofStr_toStr, vLit,
        vIntBnd, vInt, h1, h2, vseq, Except.bind, Except.map]
  | some dd =>
    have hdd : vDictEntries vAny ["details"] dd = .ok dd :=
      vDictEntries_any _ _ (List.all_eq_true.mp h3)
    cases ci <;>
      simp [ApiError.serialize, ApiError.validate, vReq, vOpt, lookupField, vStr,
        vNullable, jOptStr, vDict, hdd, apiErrorCode_ofStr_toStr, vLit,
        vIntBnd, vInt, h1, h2, vseq, Except.bind, Except.map]

lemma constraints_roundtrip (c : Constraints) (hc : c.Valid) (p : List String) :
    Constraints.validate p (Constraints.serialize c) = .ok c := by
  obtain ⟨mt, tm, fc, pp⟩ := c
  obtain ⟨hmt, htm⟩ := hc
  dsimp only at hmt htm
  cases mt <;> cases tm <;> cases fc <;> cases pp <;>
    simp_all [Constraints.serialize, Constraints.validate, vOpt, lookupField,
      jOptInt, jOptBool, jOptStr, vNullable, vIntBnd, vIntGe, vInt, vBool, vStr,
      vseq, Except.bind, Except.map]

lemma vStrMin_str {m : Nat} {s : String} (p : List String) (h : m ≤ s.length) :
    vStrMin m p (.str s) = .ok s := by
  simp [vStrMin, vStr, Except.bind, h]

lemma vNullable_obj (p : List String) {o : Option (List (String × Json))}
    (h : ∀ kvs, o = some kvs → kvs.all (fun kv => keyPatternOk kv.1) = true) :
    vNullable (vDict vAny p) (jOptObj o) = .ok o := by
  cases o with
  | none => rfl
  | some l =>
    have hl : vDictEntries vAny p l = .ok l :=
      vDictEntries_any _ _ (List.all_eq_true.mp (h l rfl))
    simp [jOptObj, vNullable, vDict, hl, Except.map]

lemma vNullable_mode (p : List String) (o : Option ReasoningMode) :
    vNullable (vLit ReasoningMode.ofStr? p) (jOptMode o) = .ok o := by
  cases o with
  | none => rfl
  | some m => simp [jOptMode, vNullable, vLit, reasoningMode_ofStr_toStr, Except.map]

lemma vNullable_service (p : List String) (o : Option ServiceName) :
    vNullable (vLit ServiceName.ofStr? p) (jOptService o) = .ok o := by
  cases o with
  | none => rfl
  | some sv => simp [jOptService, vNullable, vLit, serviceName_ofStr_toStr, Except.map]

lemma vNullable_str (p : List String) (o : Option String) :
    vNullable (vStr p) (jOptStr o) = .ok o := by
  cases o <;> rfl

lemma vNullable_uuid {o : Option (List Char)} (p : List String)
    (h : ∀ u, o = some u → UuidValid u) :
    vNullable (vUuid p) (jOptUuid o) = .ok o := by
  cases o with
  | none => rfl
  | some u =>
    have h' := h u rfl
    simp [jOptUuid, vNullable, vUuid, parseUuid_canon h'.1 h'.2, Except.map]

lemma vNullable_cst {o : Option Constraints} (p : List String)
    (h : ∀ c, o = some c → c.Valid) :
    vNullable (Constraints.validate p) (jOptConstraints o) = .ok o := by
  cases o with
  | none => rfl
  | some c =>
    have h' := constraints_roundtrip c (h c rfl) p
    show Except.map some (Constraints.validate p (Constraints.serialize c)) = .ok (some c)
    rw [h']
    rfl

lemma vNullable_intBnd {lo hi : Int} {o : Option Int} (p : List String)
    (h : ∀ n, o = some n → lo ≤ n ∧ n ≤ hi) :
    vNullable (vIntBnd lo hi p) (jOptInt o) = .ok o := by
  cases o with
  | none => rfl
  | some n =>
    have h' := h n rfl
    simp [jOptInt, vNullable, vIntBnd, vInt, Except.bind, h'.1, h'.2, Except.map]

lemma cognitiveRequest_roundtrip (v : CognitiveRequest) (hv : v.Valid) :
    CognitiveRequest.validate [] (CognitiveRequest.serialize v) = .ok v := by
  obtain ⟨task, ctx, mode, tid, src, hint, cst, dep⟩ := v
  obtain ⟨h1, hctx, h2, h3, h4⟩ := hv
  dsimp only at h1 hctx h2 h3 h4
  have hctx' : ∀ kvs, ctx = some kvs → kvs.all (fun kv => keyPatternOk kv.1) = true := by
    intro kvs hkvs
    subst hkvs
    exact hctx
  have h2' : ∀ u, tid = some u → UuidValid u := by
    intro u hu
    subst hu
    exact h2
  have h3' : ∀ c, cst = some c → c.Valid := by
    intro c hc
    subst hc
    exact h3
  have h4' : ∀ n, dep = some n → 0 ≤ n ∧ n ≤ 5 := by
    intro n hn
    subst hn
    exact h4
  have hred : CognitiveRequest.validate []
      (CognitiveRequest.serialize ⟨task, ctx, mode, tid, src, hint, cst, dep⟩) =
      vseq (vseq (vseq (vseq (vseq (vseq (vseq (vseq (.ok CognitiveRequest.mk)
        (vStrMin 1 ["task"] (.str task)))
        (vNullable (vDict vAny ["context"]) (jOptObj ctx)))
        (vNullable (vLit ReasoningMode.ofStr? ["reasoning_mode"]) (jOptMode mode)))
        (vNullable (vUuid ["trace_id"]) (jOptUuid tid)))
        (vNullable (vLit ServiceName.ofStr? ["source_service"]) (jOptService src)))
        (vNullable (vStr ["domain_hint"]) (jOptStr hint)))
        (vNullable (Constraints.validate ["constraints"]) (jOptConstraints cst)))
        (vNullable (vIntBnd 0 5 ["recursion_depth"]) (jOptInt dep)) := rfl
  rw [hred, vStrMin_str ["task"] h1, vNullable_obj ["context"] hctx', vNullable_mode,
      vNullable_uuid ["trace_id"] h2', vNullable_service, vNullable_str,
      vNullable_cst ["constraints"] h3', vNullable_intBnd ["recursion_depth"] h4']
  rfl

/-! ### The claims -/

/-- C1, counterexample: the claim "an input in which an integer-kind
field's value is a string yields a TypeMismatchError (strings are never
coerced to integers)" is false on the code: Pydantic's default lax mode
coerces the string "500" to the integer 500, and validation of
`CognitiveConstraints` with `{"max_tokens": "500"}` succeeds. -/
theorem claim_C1_counterexample :
    CognitiveConstraints.validate [] (.obj [("max_tokens", .str "500")]) =
      .ok ⟨some 500, none, some true, none⟩ := by
  decide

/-- C1, amended: for integer-kind fields (CognitiveConstraints.max_tokens,
PaginatedResponse.total), an integer-valued float (e.g. 2000.0, 2.0) is
accepted and a non-integer-valued float (e.g. 2000.5) is rejected, exactly
as claimed; but strings are not uniformly rejected: a string parsing as a
decimal integer (e.g. "500", "5") is losslessly coerced and accepted,
while only a non-numeric string (e.g. "argh") yields a TypeMismatchError. -/
theorem claim_C1_integer_kind_amended :
    (CognitiveConstraints.validate [] (.obj [("max_tokens", .str "500")]) =
      .ok ⟨some 500, none, some true, none⟩) ∧
    (CognitiveConstraints.validate [] (.obj [("max_tokens", .str "argh")]) =
      .error [⟨["max_tokens"], .typeMismatch⟩]) ∧
    (CognitiveConstraints.validate [] (.obj [("max_tokens", .float 2000)]) =
      .ok ⟨some 2000, none, some true, none⟩) ∧
    (CognitiveConstraints.validate [] (.obj [("max_tokens", .float (mkRat 4001 2))]) =
      .error [⟨["max_tokens"], .typeMismatch⟩]) ∧
    (PaginatedResponse.validate [] (.obj [("items", .arr []), ("total", .str "5"),
        ("page", .int 1), ("page_size", .int 2), ("has_more", .bool false)]) =
      .ok ⟨[], 5, 1, 2, false⟩) ∧
    (PaginatedResponse.validate [] (.obj [("items", .arr []), ("total", .float 2),
        ("page", .int 1), ("page_size", .int 2), ("has_more", .bool false)]) =
      .ok ⟨[], 2, 1, 2, false⟩) :=
  ⟨by decide, by decide, by decide, by decide, rfl, rfl⟩

/-- C2: unknown-field tolerance, instantiated on `HealthPulse` (every
model inherits the same `extra="ignore"` configuration).  Adding any
undeclared key to an input changes nothing about validation — so an input
whose declared fields are valid still validates, with the same value —
and serialization emits exactly the declared field names, so extra keys
are absent from the output. -/
theorem claim_C2_unknown_field_tolerance :
    (∀ (k : String) (j : Json) (kvs : List (String × Json)), k ∉ healthPulseFields →
      HealthPulse.validate [] (.obj ((k, j) :: kvs)) = HealthPulse.validate [] (.obj kvs)) ∧
    (∀ v : HealthPulse, jsonKeys (HealthPulse.serialize v) = healthPulseFields) := by
  constructor
  · intro k j kvs hk
    simp only [healthPulseFields, List.mem_cons, List.not_mem_nil, or_false, not_or] at hk
    obtain ⟨h1, h2, h3, h4, h5, h6, h7, h8, h9, h10⟩ := hk
    simp only [HealthPulse.validate, vReq, vOpt, lookupField_cons_ne h1,
      lookupField_cons_ne h2, lookupField_cons_ne h3, lookupField_cons_ne h4,
      lookupField_cons_ne h5, lookupField_cons_ne h6, lookupField_cons_ne h7,
      lookupField_cons_ne h8, lookupField_cons_ne h9, lookupField_cons_ne h10]
  · intro v
    rfl

/-- C2 witness: a valid input with the extra key "widget_mode" validates
exactly as the input without it (and does validate successfully), and a
serialized value's keys are the declared ones. -/
theorem claim_C2_unknown_field_tolerance_witness :
    (HealthPulse.validate [] (.obj [("widget_mode", .null), ("service", .str "backend"),
        ("status", .str "healthy"), ("uptime_seconds", .float 1),
        ("timestamp", .str "2026-01-01T00:00:00Z")]) =
      HealthPulse.validate [] (.obj [("service", .str "backend"),
        ("status", .str "healthy"), ("uptime_seconds", .float 1),
        ("timestamp", .str "2026-01-01T00:00:00Z")])) ∧
    (jsonKeys (HealthPulse.serialize ⟨.backend, .healthy, 1, none, none, none, none,
      none, none, "2026-01-01T00:00:00Z"⟩) = healthPulseFields) ∧
    (HealthPulse.validate [] (.obj [("widget_mode", .null), ("service", .str "backend"),
        ("status", .str "healthy"), ("uptime_seconds", .float 1),
        ("timestamp", .str "2026-01-01T00:00:00Z")]) =
      .ok ⟨.backend, .healthy, 1, none, none, none, none, none, none,
        "2026-01-01T00:00:00Z"⟩) :=
  ⟨claim_C2_unknown_field_tolerance.1 "widget_mode" .null
      [("service", .str "backend"), ("status", .str "healthy"),
       ("uptime_seconds", .float 1), ("timestamp", .str "2026-01-01T00:00:00Z")]
      (by decide),
   claim_C2_unknown_field_tolerance.2 _,
   by decide⟩

/-- C3: validation accumulates errors and never short-circuits: whenever
both required fields `service` and `timestamp` are absent from a
`HealthPulse` input, the returned batch reports both (a later field is
still checked after an earlier one fails); and on the concrete input
holding only `uptime_seconds`, the batch contains exactly one error per
failing field — three `MissingFieldError`s, one for each absent required
field, and nothing for the children of absent optional parents such as
`resources`. -/
theorem claim_C3_error_accumulation :
    (∀ kvs : List (String × Json), lookupField kvs "service" = none →
        lookupField kvs "timestamp" = none →
      ∃ E, HealthPulse.validate [] (.obj kvs) = .error E ∧
        (⟨["service"], .missing⟩ : VError) ∈ E ∧
        (⟨["timestamp"], .missing⟩ : VError) ∈ E) ∧
    (HealthPulse.validate [] (.obj [("uptime_seconds", .float (mkRat 241 2))]) =
      .error [⟨["service"], .missing⟩, ⟨["status"], .missing⟩, ⟨["timestamp"], .missing⟩]) := by
  constructor
  · intro kvs hs ht
    have h1 : vReq kvs [] "service" (vLit ServiceName.ofStr?) =
        .error [⟨["service"], .missing⟩] := by simp [vReq, hs]
    have h2 : vseq (.ok HealthPulse.mk) (vReq kvs [] "service" (vLit ServiceName.ofStr?)) =
        .error [⟨["service"], .missing⟩] := by rw [h1]; rfl
    have m0 : (⟨["service"], .missing⟩ : VError) ∈ [(⟨["service"], .missing⟩ : VError)] := by simp
    obtain ⟨E2, hE2, hm2⟩ := vseq_error_left h2 m0
      (vReq kvs [] "status" (vLit PulseStatus.ofStr?))
    obtain ⟨E3, hE3, hm3⟩ := vseq_error_left hE2 hm2 (vReq kvs [] "uptime_seconds" vFloat)
    obtain ⟨E4, hE4, hm4⟩ := vseq_error_left hE3 hm3
      (vOpt kvs [] "last_request_ms" none (fun q j => vNullable (vFloat q) j))
    obtain ⟨E5, hE5, hm5⟩ := vseq_error_left hE4 hm4
      (vOpt kvs [] "active_sessions" none (fun q j => vNullable (vInt q) j))
    obtain ⟨E6, hE6, hm6⟩ := vseq_error_left hE5 hm5
      (vOpt kvs [] "modules" none
        (fun q j => vNullable (vDict (vLit ModuleState.ofStr?) q) j))
    obtain ⟨E7, hE7, hm7⟩ := vseq_error_left hE6 hm6
      (vOpt kvs [] "resources" none (fun q j => vNullable (Resources.validate q) j))
    obtain ⟨E8, hE8, hm8⟩ := vseq_error_left hE7 hm7
      (vOpt kvs [] "last_error" none (fun q j => vNullable (vStr q) j))
    obtain ⟨E9, hE9, hm9⟩ := vseq_error_left hE8 hm8
      (vOpt kvs [] "version" none (fun q j => vNullable (vStr q) j))
    have hG : vReq kvs [] "timestamp" vDatetime = .error [⟨["timestamp"], .missing⟩] := by
      simp [vReq, ht]
    refine ⟨E9 ++ [⟨["timestamp"], .missing⟩], vseq_error_error hE9 hG, ?_, ?_⟩
    · exact List.mem_append_left _ hm9
    · exact List.mem_append_right _ (by simp)
  · decide

/-- C3 witness: the accumulation theorem applied at the concrete input
`{"status": "healthy", "uptime_seconds": 120.5}`, where both `service`
and `timestamp` are absent. -/
theorem claim_C3_error_accumulation_witness :
    ∃ E, HealthPulse.validate [] (.obj [("status", .str "healthy"),
        ("uptime_seconds", .float (mkRat 241 2))]) = .error E ∧
      (⟨["service"], .missing⟩ : VError) ∈ E ∧
      (⟨["timestamp"], .missing⟩ : VError) ∈ E :=
  claim_C3_error_accumulation.1
    [("status", .str "healthy"), ("uptime_seconds", .float (mkRat 241 2))] rfl rfl

/-- C4: enum literal sets are closed: any string outside the declared set
of `ApiError.code` — even though it is of the correct scalar kind — makes
validation fail with a `ConstraintViolationError` on `code` (every other
field valid), and any string outside the `DomainId` root literal set is
rejected the same way; out-of-set values are never coerced into the set. -/
theorem claim_C4_enum_closure :
    (∀ s : String, s ∉ apiErrorCodeStrs →
      ApiError.validate [] (.obj [("code", .str s), ("message", .str "x"),
          ("status_code", .int 404)]) =
        .error [⟨["code"], .constraintViolation⟩]) ∧
    (∀ s : String, s ∉ domainIdStrs →
      DomainId.validate (.str s) = .error [⟨[], .constraintViolation⟩]) := by
  constructor
  · intro s h
    have hn := apiErrorCode_ofStr_none h
    have hl : vLit ApiErrorCode.ofStr? ["code"] (.str s) =
        .error [⟨["code"], .constraintViolation⟩] := by simp [vLit, hn]
    have hred : ApiError.validate [] (.obj [("code", .str s), ("message", .str "x"),
        ("status_code", .int 404)]) =
        vseq (vseq (vseq (vseq (vseq (.ok ApiError.mk)
          (vLit ApiErrorCode.ofStr? ["code"] (.str s))) (.ok "x")) (.ok 404))
          (.ok none)) (.ok none) := rfl
    rw [hred, hl]
    rfl
  · intro s h
    have hn := domainId_ofStr_none h
    simp [DomainId.validate, vLit, hn]

/-- C4 witness: the closure theorem applied to the out-of-set strings
"OTHER_ERROR" (for `ApiError.code`) and "astrology" (for `DomainId`). -/
theorem claim_C4_enum_closure_witness :
    (ApiError.validate [] (.obj [("code", .str "OTHER_ERROR"), ("message", .str "x"),
        ("status_code", .int 404)]) = .error [⟨["code"], .constraintViolation⟩]) ∧
    (DomainId.validate (.str "astrology") = .error [⟨[], .constraintViolation⟩]) :=
  ⟨claim_C4_enum_closure.1 "OTHER_ERROR" (by decide),
   claim_C4_enum_closure.2 "astrology" (by decide)⟩

/-- C5: numeric bounds are inclusive: `{"overall_score": 1.5}` against the
quality-score contract yields a `ConstraintViolationError` on
`overall_score`, the boundary values 0.0 and 1.0 are accepted, and for
every integer `n`, `ApiError` with `status_code` `n` (other fields fixed
and valid) validates successfully exactly when 400 ≤ n ≤ 599, failing with
a `ConstraintViolationError` on `status_code` otherwise. -/
theorem claim_C5_inclusive_bounds :
    (QualityScore.validate [] (.obj [("overall_score", .float (mkRat 3 2))]) =
      .error [⟨["overall_score"], .constraintViolation⟩]) ∧
    (QualityScore.validate [] (.obj [("overall_score", .float 0)]) =
      .ok ⟨0, none, none, none⟩) ∧
    (QualityScore.validate [] (.obj [("overall_score", .float 1)]) =
      .ok ⟨1, none, none, none⟩) ∧
    (∀ n : Int,
      ApiError.validate [] (.obj [("code", .str "NOT_FOUND"), ("message", .str "x"),
          ("status_code", .int n)]) =
        if 400 ≤ n ∧ n ≤ 599 then .ok ⟨.NOT_FOUND, "x", n, none, none⟩
        else .error [⟨["status_code"], .constraintViolation⟩]) := by
  refine ⟨by decide, by decide, by decide, ?_⟩
  intro n
  have hred : ApiError.validate [] (.obj [("code", .str "NOT_FOUND"), ("message", .str "x"),
      ("status_code", .int n)]) =
      vseq (vseq (vseq (vseq (vseq (.ok ApiError.mk) (.ok .NOT_FOUND)) (.ok "x"))
        (if 400 ≤ n ∧ n ≤ 599 then .ok n
         else .error [⟨["status_code"], .constraintViolation⟩])) (.ok none)) (.ok none) := rfl
  rw [hred]
  split_ifs <;> rfl

/-- C5 witness: the bound theorem applied at the boundary 599 and just
outside it at 600. -/
theorem claim_C5_inclusive_bounds_witness :
    (ApiError.validate [] (.obj [("code", .str "NOT_FOUND"), ("message", .str "x"),
        ("status_code", .int 599)]) = .ok ⟨.NOT_FOUND, "x", 599, none, none⟩) ∧
    (ApiError.validate [] (.obj [("code", .str "NOT_FOUND"), ("message", .str "x"),
        ("status_code", .int 600)]) = .error [⟨["status_code"], .constraintViolation⟩]) := by
  constructor
  · rw [claim_C5_inclusive_bounds.2.2.2 599]
    rfl
  · rw [claim_C5_inclusive_bounds.2.2.2 600]
    rfl

/-- C6, counterexample: the claim "yields exactly one MissingFieldError,
naming service" is false on the code: `HealthPulse.timestamp` is also a
required field, so `{"status": "healthy", "uptime_seconds": 120.5}` yields
two MissingFieldErrors — the batch is not a single error. -/
theorem claim_C6_counterexample :
    (HealthPulse.validate [] (.obj [("status", .str "healthy"),
        ("uptime_seconds", .float (mkRat 241 2))]) =
      .error [⟨["service"], .missing⟩, ⟨["timestamp"], .missing⟩]) ∧
    ¬∃ e : VError, HealthPulse.validate [] (.obj [("status", .str "healthy"),
        ("uptime_seconds", .float (mkRat 241 2))]) = .error [e] := by
  refine ⟨by decide, ?_⟩
  rintro ⟨e, he⟩
  have h : HealthPulse.validate [] (.obj [("status", .str "healthy"),
      ("uptime_seconds", .float (mkRat 241 2))]) =
      .error [⟨["service"], .missing⟩, ⟨["timestamp"], .missing⟩] := by decide
  rw [h] at he
  simp at he

/-- C6, amended: validating `{"status": "healthy", "uptime_seconds":
120.5}` against `HealthPulse` yields exactly two MissingFieldErrors,
naming `service` and `timestamp` (both required and both absent), and no
other errors. -/
theorem claim_C6_missing_required_amended :
    HealthPulse.validate [] (.obj [("status", .str "healthy"),
        ("uptime_seconds", .float (mkRat 241 2))]) =
      .error [⟨["service"], .missing⟩, ⟨["timestamp"], .missing⟩] := by
  decide

/-- C7: validating `{"code": "NOT_FOUND", "message": "x", "status_code":
404}` against `ApiError` succeeds, and serializing the validated value
emits the fields in declared order code, message, status_code, details,
correlation_id — the first three identical to the input, `details` and
`correlation_id` as null. -/
theorem claim_C7_api_error_scenario :
    (ApiError.validate [] (.obj [("code", .str "NOT_FOUND"), ("message", .str "x"),
        ("status_code", .int 404)]) = .ok ⟨.NOT_FOUND, "x", 404, none, none⟩) ∧
    (ApiError.serialize ⟨.NOT_FOUND, "x", 404, none, none⟩ =
      .obj [("code", .str "NOT_FOUND"), ("message", .str "x"), ("status_code", .int 404),
            ("details", .null), ("correlation_id", .null)]) :=
  ⟨rfl, rfl⟩

/-- C8: round-trip, instantiated for the `ApiError` and `CognitiveRequest`
contracts: for every valid typed value `v` — one satisfying every declared
constraint, including the `^(.*)$` key pattern on the `details` / `context`
dict keys — validating the serialization of `v` succeeds and returns `v`
itself. -/
theorem claim_C8_roundtrip :
    (∀ v : ApiError, v.Valid →
      ApiError.validate [] (ApiError.serialize v) = .ok v) ∧
    (∀ v : CognitiveRequest, v.Valid →
      CognitiveRequest.validate [] (CognitiveRequest.serialize v) = .ok v) :=
  ⟨apiError_roundtrip, cognitiveRequest_roundtrip⟩

/-- C8 witness: the round-trip applied to one concrete valid value of each
contract. -/
theorem claim_C8_roundtrip_witness :
    (ApiError.validate [] (ApiError.serialize
        ⟨.RATE_LIMIT, "slow down", 429, some [("limit", .int 10)], some "abc-1"⟩) =
      .ok ⟨.RATE_LIMIT, "slow down", 429, some [("limit", .int 10)], some "abc-1"⟩) ∧
    (CognitiveRequest.validate [] (CognitiveRequest.serialize
        ⟨"plan the rollout", some [("region", .str "eu")], some .deep,
         some ("123e4567e89b12d3a456426614174000".data), some .backend, some "strategy",
         some ⟨some 500, some 2000, some true, some "anthropic"⟩, some 2⟩) =
      .ok ⟨"plan the rollout", some [("region", .str "eu")], some .deep,
         some ("123e4567e89b12d3a456426614174000".data), some .backend, some "strategy",
         some ⟨some 500, some 2000, some true, some "anthropic"⟩, some 2⟩) :=
  ⟨claim_C8_roundtrip.1 _ ⟨by decide, by decide, by decide⟩,
   claim_C8_roundtrip.2 _
     ⟨by decide, by decide, ⟨by decide, by decide⟩, ⟨⟨by decide, by decide⟩, by decide⟩,
      ⟨by decide, by decide⟩⟩⟩

/-- C10: `CognitiveResponse.recommendation` is required but nullable:
every input object lacking the key `recommendation` is rejected with a
`MissingFieldError` for it, while an input carrying `recommendation: null`
(with `reasoning` and `confidence` valid) is accepted with the validated
value holding `none`. -/
theorem claim_C10_recommendation_required_nullable :
    (∀ kvs : List (String × Json), lookupField kvs "recommendation" = none →
      ∃ E, CognitiveResponse.validate [] (.obj kvs) = .error E ∧
        (⟨["recommendation"], .missing⟩ : VError) ∈ E) ∧
    (CognitiveResponse.validate [] (.obj [("recommendation", .null), ("reasoning", .str "r"),
        ("confidence", .float (mkRat 1 2))]) =
      .ok ⟨none, "r", mkRat 1 2, none, none, none, none⟩) := by
  constructor
  · intro kvs h
    have h1 : vReq kvs [] "recommendation" (fun q j => vNullable (vStr q) j) =
        .error [⟨["recommendation"], .missing⟩] := by
      simp [vReq, h]
    have h2 : vseq (.ok CognitiveResponse.mk)
        (vReq kvs [] "recommendation" (fun q j => vNullable (vStr q) j)) =
        .error [⟨["recommendation"], .missing⟩] := by rw [h1]; rfl
    have m0 : (⟨["recommendation"], .missing⟩ : VError) ∈
        [(⟨["recommendation"], .missing⟩ : VError)] := by simp
    obtain ⟨E2, hE2, hm2⟩ := vseq_error_left h2 m0 (vReq kvs [] "reasoning" vStr)
    obtain ⟨E3, hE3, hm3⟩ := vseq_error_left hE2 hm2 (vReq kvs [] "confidence" (vFloatBnd 0 1))
    obtain ⟨E4, hE4, hm4⟩ := vseq_error_left hE3 hm3
      (vOpt kvs [] "reasoning_chain" none (fun q j => vNullable (vList vStr q) j))
    obtain ⟨E5, hE5, hm5⟩ := vseq_error_left hE4 hm4
      (vOpt kvs [] "trace" none (fun q j => vNullable (Trace.validate q) j))
    obtain ⟨E6, hE6, hm6⟩ := vseq_error_left hE5 hm5
      (vOpt kvs [] "quality" none (fun q j => vNullable (Quality.validate q) j))
    obtain ⟨E7, hE7, hm7⟩ := vseq_error_left hE6 hm6
      (vOpt kvs [] "routing" none (fun q j => vNullable (Routing.validate q) j))
    exact ⟨E7, hE7, hm7⟩
  · decide

/-- C10 witness: the theorem applied at an input that carries `reasoning`
and `confidence` but no `recommendation` key. -/
theorem claim_C10_recommendation_required_nullable_witness :
    ∃ E, CognitiveResponse.validate [] (.obj [("reasoning", .str "r"),
        ("confidence", .float 1)]) = .error E ∧
      (⟨["recommendation"], .missing⟩ : VError) ∈ E :=
  claim_C10_recommendation_required_nullable.1
    [("reasoning", .str "r"), ("confidence", .float 1)] rfl

/-- C9: the duplicated contracts are observationally equivalent: on every
raw input (and at every path), validating against `QualityScore` gives
exactly the result of validating against `Quality` with the fields
repackaged — so success coincides and successful values have identical
field contents; likewise `TraceInfo` versus `Trace`. -/
theorem claim_C9_duplicate_equivalence :
    (∀ (p : List String) (j : Json),
      QualityScore.validate p j = Except.map Quality.toScore (Quality.validate p j)) ∧
    (∀ (p : List String) (j : Json),
      TraceInfo.validate p j = Except.map Trace.toInfo (Trace.validate p j)) := by
  constructor
  · intro p j
    cases j <;> try rfl
    simp only [Quality.validate, QualityScore.validate, map_vseq]
    rfl
  · intro p j
    cases j <;> try rfl
    simp only [Trace.validate, TraceInfo.validate, map_vseq]
    rfl

/-- C9 witness: the equivalence applied at concrete inputs of each pair. -/
theorem claim_C9_duplicate_equivalence_witness :
    (QualityScore.validate [] (.obj [("overall_score", .float 1)]) =
      Except.map Quality.toScore (Quality.validate [] (.obj [("overall_score", .float 1)]))) ∧
    (TraceInfo.validate [] (.obj [("trace_id", .str "t-1")]) =
      Except.map Trace.toInfo (Trace.validate [] (.obj [("trace_id", .str "t-1")]))) :=
  ⟨claim_C9_duplicate_equivalence.1 [] (.obj [("overall_score", .float 1)]),
   claim_C9_duplicate_equivalence.2 [] (.obj [("trace_id", .str "t-1")])⟩
